import Mathlib

/-!
Shallow embedding of `airflow/providers/sftp/operators/sftp.py` (class
`SFTPOperator`). The operator validates configuration at construction,
resolves an SFTP hook at execution time, optionally creates directories,
performs one transfer, and wraps every failure of the execute body in a
single `AirflowException`. External collaborators (the `SFTPHook` client,
`pathlib.Path.mkdir`, the filesystem) are modelled by an environment that
says which external call fails, and by an event trace recording every
invocation the operator makes.
-/

set_option autoImplicit false

namespace Sftp

/-- The two operation constants of class `SFTPOperation` in the source. -/
def SFTPOperation.PUT : String := "put"

/-- The constant `SFTPOperation.GET` in the source. -/
def SFTPOperation.GET : String := "get"

/-- The object passed as the `ssh_hook` parameter. Python does not enforce
the annotation, so the object may or may not actually be an instance of
`SSHHook`; `isSSHHook` models the `isinstance(self.ssh_hook, SSHHook)`
check, and `hookId` distinguishes concrete handles. -/
structure SSHHookParam where
  isSSHHook : Bool
  hookId : Nat
  deriving DecidableEq, Repr

/-- How an `SFTPHook` object came to exist: supplied by the caller,
constructed as `SFTPHook(ssh_conn_id=...)`, or constructed as
`SFTPHook(ssh_hook=...)` wrapping a legacy handle. -/
inductive HookOrigin where
  | supplied (tag : Nat)
  | fromConnId (connId : Option String)
  | wrapsSshHook (h : SSHHookParam)
  deriving DecidableEq, Repr

/-- The object held in the `sftp_hook` field. `isSFTPHook` models the
`isinstance(self.sftp_hook, SFTPHook)` check (a caller may pass a foreign
object); `remote_host` is the mutable attribute the operator overrides.
`none` for `remote_host` means the host configured in the connection. -/
structure SFTPHookObj where
  isSFTPHook : Bool
  origin : HookOrigin
  remote_host : Option String
  deriving DecidableEq, Repr

/-- `SFTPHook(ssh_conn_id=c)`: the real constructor only stores its
arguments (no network I/O at construction), so it is modelled as total. -/
def SFTPHook.ofConnId (c : Option String) : SFTPHookObj :=
  { isSFTPHook := true, origin := HookOrigin.fromConnId c, remote_host := none }

/-- `SFTPHook(ssh_hook=h)`: wraps a legacy handle. -/
def SFTPHook.ofSshHook (h : SSHHookParam) : SFTPHookObj :=
  { isSFTPHook := true, origin := HookOrigin.wrapsSshHook h, remote_host := none }

/-- A raised Python exception, by class and message. -/
inductive PyError where
  | typeError (msg : String)
  | airflowException (msg : String)
  | externalError (msg : String)
  deriving DecidableEq, Repr

/-- `str(e)` on a raised exception: its message. -/
def PyError.str : PyError → String
  | PyError.typeError m => m
  | PyError.airflowException m => m
  | PyError.externalError m => m

/-- The keyword arguments of `SFTPOperator.__init__`, with the default
values of the Python signature. -/
structure InitArgs where
  ssh_hook : Option SSHHookParam := none
  sftp_hook : Option SFTPHookObj := none
  ssh_conn_id : Option String := none
  remote_host : Option String := none
  local_filepath : String
  remote_filepath : String
  operation : String := SFTPOperation.PUT
  confirm : Bool := true
  create_intermediate_dirs : Bool := false
  deriving DecidableEq, Repr

/-- The instance attributes of a constructed `SFTPOperator`. -/
structure SFTPOperator where
  ssh_hook : Option SSHHookParam
  sftp_hook : Option SFTPHookObj
  ssh_conn_id : Option String
  remote_host : Option String
  local_filepath : String
  remote_filepath : String
  operation : String
  confirm : Bool
  create_intermediate_dirs : Bool
  deriving DecidableEq, Repr

/-- Diagnostics emitted during `__init__`: the informational log in the
invalid-`ssh_hook` branch, and the `DeprecationWarning`. -/
inductive InitEvent where
  | logInvalidSshHook
  | deprecationWarning
  deriving DecidableEq, Repr

/-- The field assignments at the top of `__init__`. -/
def SFTPOperator.fieldsOf (a : InitArgs) : SFTPOperator :=
  { ssh_hook := a.ssh_hook, sftp_hook := a.sftp_hook, ssh_conn_id := a.ssh_conn_id,
    remote_host := a.remote_host, local_filepath := a.local_filepath,
    remote_filepath := a.remote_filepath, operation := a.operation,
    confirm := a.confirm, create_intermediate_dirs := a.create_intermediate_dirs }

/-- Python `str.lower()`: lowercase every character (the operation strings
involved are ASCII). Structurally recursive so it evaluates by `decide`. -/
def strToLower (s : String) : String :=
  String.mk (s.data.map Char.toLower)

/-- Message of the `TypeError` raised for a bad `operation` value, with the
constants `SFTPOperation.GET`/`PUT` rendered as in the f-string. -/
def unsupportedOperationMsg (op : String) : String :=
  "Unsupported operation value " ++ op ++ ", expected get or put."

/-- Message of the `AirflowException` raised when both hooks are given. -/
def bothHooksMsg : String :=
  "Both `ssh_hook` and `sftp_hook` are defined. Please use only one of them."

/-- `SFTPOperator.__init__`: assigns the fields, checks the lowercased
operation is `get` or `put` (else `TypeError`), checks at most one of
`ssh_hook`/`sftp_hook` is given (else `AirflowException`), then handles a
present `ssh_hook`: if it is not an `SSHHook` instance, log and build the
hook from `ssh_conn_id`; afterwards, if `sftp_hook` is still `None`, emit
the deprecation warning and wrap the legacy handle. -/
def SFTPOperator.init (a : InitArgs) : Except PyError (SFTPOperator × List InitEvent) :=
  let self := SFTPOperator.fieldsOf a
  if ¬ (strToLower self.operation = SFTPOperation.GET ∨ strToLower self.operation = SFTPOperation.PUT) then
    Except.error (PyError.typeError (unsupportedOperationMsg self.operation))
  else if self.ssh_hook.isSome ∧ self.sftp_hook.isSome then
    Except.error (PyError.airflowException bothHooksMsg)
  else
    match self.ssh_hook with
    | none => Except.ok (self, [])
    | some hk =>
      let st1 :=
        if hk.isSSHHook then (self, ([] : List InitEvent))
        else ({ self with sftp_hook := some (SFTPHook.ofConnId self.ssh_conn_id) },
              [InitEvent.logInvalidSshHook])
      if st1.1.sftp_hook.isNone then
        Except.ok ({ st1.1 with sftp_hook := some (SFTPHook.ofSshHook hk) },
                   st1.2 ++ [InitEvent.deprecationWarning])
      else
        Except.ok (st1.1, st1.2)

/-- `os.path.dirname` for POSIX paths (CPython `posixpath.dirname`): take
everything up to and including the last slash, then strip trailing slashes
unless the head is made of slashes only. -/
def posixDirname (p : String) : String :=
  let rev := p.data.reverse
  let afterRev := rev.takeWhile (fun c => ¬ (c = '/'))
  let headRev := rev.drop afterRev.length
  if headRev.isEmpty then ""
  else if headRev.all (fun c => c = '/') then String.mk headRev.reverse
  else String.mk (headRev.dropWhile (fun c => c = '/')).reverse

/-- Python truthiness of `self.ssh_conn_id` (`None` and `""` are falsy). -/
def connIdTruthy : Option String → Bool
  | none => false
  | some s => ¬ (s = "")

/-- `self.sftp_hook and isinstance(self.sftp_hook, SFTPHook)`: present and
an actual `SFTPHook` instance. -/
def hookIsValid : Option SFTPHookObj → Bool
  | none => false
  | some h => h.isSFTPHook

/-- Which external calls fail in a given run, and with what message. The
operator sees collaborators only through these calls, so a run of `execute`
is determined by the operator state and this environment. -/
structure Env where
  connIdHookError : Option String
  mkdirError : Option String
  createDirError : Option String
  retrieveError : Option String
  storeError : Option String
  deriving DecidableEq, Repr

/-- The environment in which every external call succeeds. -/
def Env.allOk : Env :=
  { connIdHookError := none, mkdirError := none, createDirError := none,
    retrieveError := none, storeError := none }

/-- Observable steps of `execute`: log lines and external invocations, in
program order. `mkdirLocal` records the `parents`/`exist_ok` flags passed
to `Path.mkdir`. -/
inductive ExecEvent where
  | logConnIdIgnored
  | logTryConnId
  | logRemoteHostReplace
  | mkdirLocal (path : String) (parents exist_ok : Bool)
  | createRemoteDir (path : String)
  | logTransferStart (msg : String)
  | retrieveFile (remotePath localPath : String)
  | storeFile (remotePath localPath : String) (confirm : Bool)
  deriving DecidableEq, Repr

/-- Outcome of the `try` body of `execute`: the mutated operator, the
events so far, the value of `file_msg` at exit, and the raised exception
if any. -/
structure BodyOut where
  self : SFTPOperator
  events : List ExecEvent
  file_msg : Option String
  err : Option PyError
  deriving DecidableEq, Repr

instance exceptDecEq {ε α : Type} [DecidableEq ε] [DecidableEq α] :
    DecidableEq (Except ε α) := fun a b =>
  match a, b with
  | Except.ok x, Except.ok y =>
    if h : x = y then isTrue (by rw [h]) else isFalse (fun hh => by cases hh; exact h rfl)
  | Except.error x, Except.error y =>
    if h : x = y then isTrue (by rw [h]) else isFalse (fun hh => by cases hh; exact h rfl)
  | Except.ok _, Except.error _ => isFalse (fun hh => by cases hh)
  | Except.error _, Except.ok _ => isFalse (fun hh => by cases hh)

/-- Outcome of `execute`: the mutated operator, the events, and either the
returned local path or the raised exception. -/
structure ExecResult where
  self : SFTPOperator
  events : List ExecEvent
  result : Except PyError String
  deriving DecidableEq, Repr

/-- Message of the `AirflowException` raised when no hook is resolvable. -/
def cannotOperateMsg : String := "Cannot operate without sftp_hook or ssh_conn_id."

/-- The `ssh_conn_id` block at the top of `execute`: if the identifier is
truthy, either log that it is ignored (valid hook already present) or
assign `self.sftp_hook = SFTPHook(ssh_conn_id=...)`, which may raise. -/
def resolveHookStep (env : Env) (s : SFTPOperator) :
    SFTPOperator × List ExecEvent × Option PyError :=
  if connIdTruthy s.ssh_conn_id then
    if hookIsValid s.sftp_hook then
      (s, [ExecEvent.logConnIdIgnored], none)
    else
      match env.connIdHookError with
      | some m => (s, [ExecEvent.logTryConnId], some (PyError.externalError m))
      | none => ({ s with sftp_hook := some (SFTPHook.ofConnId s.ssh_conn_id) },
                 [ExecEvent.logTryConnId], none)
  else (s, [], none)

/-- The GET arm of the dispatch: optional `Path(local_folder).mkdir`,
assign `file_msg`, log, and call `retrieve_file`. -/
def getBranch (env : Env) (s : SFTPOperator) (evs : List ExecEvent) : BodyOut :=
  let localFolder := posixDirname s.local_filepath
  let mkEvs := if s.create_intermediate_dirs then
      [ExecEvent.mkdirLocal localFolder true true] else []
  match (if s.create_intermediate_dirs then env.mkdirError else none) with
  | some m => { self := s, events := evs ++ mkEvs, file_msg := none,
                err := some (PyError.externalError m) }
  | none =>
    let fmsg := "from " ++ s.remote_filepath ++ " to " ++ s.local_filepath
    let evs2 := evs ++ mkEvs ++
      [ExecEvent.logTransferStart fmsg,
       ExecEvent.retrieveFile s.remote_filepath s.local_filepath]
    match env.retrieveError with
    | some m => { self := s, events := evs2, file_msg := some fmsg,
                  err := some (PyError.externalError m) }
    | none => { self := s, events := evs2, file_msg := some fmsg, err := none }

/-- The PUT arm of the dispatch: optional `create_directory(remote_folder)`,
assign `file_msg`, log, and call `store_file(..., confirm=self.confirm)`. -/
def putBranch (env : Env) (s : SFTPOperator) (evs : List ExecEvent) : BodyOut :=
  let remoteFolder := posixDirname s.remote_filepath
  let mkEvs := if s.create_intermediate_dirs then
      [ExecEvent.createRemoteDir remoteFolder] else []
  match (if s.create_intermediate_dirs then env.createDirError else none) with
  | some m => { self := s, events := evs ++ mkEvs, file_msg := none,
                err := some (PyError.externalError m) }
  | none =>
    let fmsg := "from " ++ s.local_filepath ++ " to " ++ s.remote_filepath
    let evs2 := evs ++ mkEvs ++
      [ExecEvent.logTransferStart fmsg,
       ExecEvent.storeFile s.remote_filepath s.local_filepath s.confirm]
    match env.storeError with
    | some m => { self := s, events := evs2, file_msg := some fmsg,
                  err := some (PyError.externalError m) }
    | none => { self := s, events := evs2, file_msg := some fmsg, err := none }

/-- The `try` body of `execute`: resolve the hook, fail if none, apply the
`remote_host` override to the hook, then dispatch on the lowercased
operation (`get` goes to the GET arm, anything else to the PUT arm). -/
def executeBody (env : Env) (s0 : SFTPOperator) : BodyOut :=
  match resolveHookStep env s0 with
  | (s1, evs1, some e) => { self := s1, events := evs1, file_msg := none, err := some e }
  | (s1, evs1, none) =>
    if s1.sftp_hook.isNone then
      { self := s1, events := evs1, file_msg := none,
        err := some (PyError.airflowException cannotOperateMsg) }
    else
      let s2 := if s1.remote_host.isSome then
          { s1 with sftp_hook := s1.sftp_hook.map (fun h => { h with remote_host := s1.remote_host }) }
        else s1
      let evs2 := evs1 ++ (if s1.remote_host.isSome then [ExecEvent.logRemoteHostReplace] else [])
      if strToLower s2.operation = SFTPOperation.GET then getBranch env s2 evs2
      else putBranch env s2 evs2

/-- Rendering of `file_msg` in the f-string of the `except` clause:
`None` prints as the string `"None"`. -/
def fileMsgStr : Option String → String
  | none => "None"
  | some m => m

/-- The wrapped message of the translated `AirflowException`. -/
def transferErrMsg (fm cause : String) : String :=
  "Error while transferring " ++ fm ++ ", error: " ++ cause

/-- `SFTPOperator.execute`: run the body; on any exception re-raise it as
`AirflowException(f"Error while transferring {file_msg}, error: {str(e)}")`,
otherwise return `self.local_filepath`. -/
def SFTPOperator.execute (env : Env) (s : SFTPOperator) : ExecResult :=
  let b := executeBody env s
  match b.err with
  | some e =>
    { self := b.self, events := b.events,
      result := Except.error (PyError.airflowException (transferErrMsg (fileMsgStr b.file_msg) e.str)) }
  | none => { self := b.self, events := b.events, result := Except.ok b.self.local_filepath }

/-- Events that invoke a transfer on the client. -/
def isTransferEvent : ExecEvent → Bool
  | ExecEvent.retrieveFile _ _ => true
  | ExecEvent.storeFile _ _ _ => true
  | _ => false

/-- Number of transfer invocations in a trace. -/
def transferCount (evs : List ExecEvent) : Nat :=
  (evs.filter isTransferEvent).length

/-- A hook is resolvable at execution time: either a valid `SFTPHook` is
already present, or a truthy `ssh_conn_id` lets `execute` build one. -/
def hookResolvable (s : SFTPOperator) : Bool :=
  hookIsValid s.sftp_hook || connIdTruthy s.ssh_conn_id

lemma transferCount_append (a b : List ExecEvent) :
    transferCount (a ++ b) = transferCount a + transferCount b := by
  simp [transferCount, List.filter_append]

lemma hookIsValid_isSome {o : Option SFTPHookObj} (h : hookIsValid o = true) :
    o.isNone = false := by
  cases o with
  | none => simp [hookIsValid] at h
  | some hk => rfl

lemma resolveHookStep_cases (env : Env) (s : SFTPOperator) :
    ((resolveHookStep env s).1 = s ∨
     (resolveHookStep env s).1 = { s with sftp_hook := some (SFTPHook.ofConnId s.ssh_conn_id) }) ∧
    transferCount (resolveHookStep env s).2.1 = 0 := by
  unfold resolveHookStep
  by_cases h1 : connIdTruthy s.ssh_conn_id = true
  · by_cases h2 : hookIsValid s.sftp_hook = true
    · simp [h1, h2, transferCount, isTransferEvent]
    · cases he : env.connIdHookError with
      | none => simp [h1, h2, he, transferCount, isTransferEvent]
      | some m => simp [h1, h2, he, transferCount, isTransferEvent]
  · simp [h1, transferCount]

lemma resolveHookStep_ok (env : Env) (s : SFTPOperator)
    (he : env.connIdHookError = none) (hres : hookResolvable s = true) :
    ∃ s1 evs1, resolveHookStep env s = (s1, evs1, none) ∧
      hookIsValid s1.sftp_hook = true ∧ transferCount evs1 = 0 ∧
      (s1 = s ∨ s1 = { s with sftp_hook := some (SFTPHook.ofConnId s.ssh_conn_id) }) := by
  unfold resolveHookStep
  by_cases h2 : hookIsValid s.sftp_hook = true
  · by_cases h1 : connIdTruthy s.ssh_conn_id = true
    · exact ⟨s, [ExecEvent.logConnIdIgnored], by simp [h1, h2], h2,
        by simp [transferCount, isTransferEvent], Or.inl rfl⟩
    · exact ⟨s, [], by simp [h1, h2], h2, by simp [transferCount], Or.inl rfl⟩
  · have h1 : connIdTruthy s.ssh_conn_id = true := by
      rcases Bool.or_eq_true_iff.mp (by simpa [hookResolvable] using hres) with h | h
      · exact absurd h h2
      · exact h
    exact ⟨{ s with sftp_hook := some (SFTPHook.ofConnId s.ssh_conn_id) },
      [ExecEvent.logTryConnId], by simp [h1, h2, he],
      by simp [hookIsValid, SFTPHook.ofConnId],
      by simp [transferCount, isTransferEvent], Or.inr rfl⟩

lemma getBranch_self (env : Env) (s : SFTPOperator) (evs : List ExecEvent) :
    (getBranch env s evs).self = s := by
  unfold getBranch
  by_cases hc : s.create_intermediate_dirs = true <;>
    simp only [hc] <;> cases env.mkdirError <;> cases env.retrieveError <;> simp

lemma putBranch_self (env : Env) (s : SFTPOperator) (evs : List ExecEvent) :
    (putBranch env s evs).self = s := by
  unfold putBranch
  by_cases hc : s.create_intermediate_dirs = true <;>
    simp only [hc] <;> cases env.createDirError <;> cases env.storeError <;> simp

lemma getBranch_shape (env : Env) (s : SFTPOperator) (evs : List ExecEvent) :
    ((getBranch env s evs).file_msg = none ∨
     (getBranch env s evs).file_msg = some ("from " ++ s.remote_filepath ++ " to " ++ s.local_filepath)) ∧
    transferCount (getBranch env s evs).events ≤ transferCount evs + 1 := by
  unfold getBranch
  by_cases hc : s.create_intermediate_dirs = true
  · cases hm : env.mkdirError with
    | some m => simp [hc, hm, transferCount_append, transferCount, isTransferEvent]
    | none =>
      cases hr : env.retrieveError with
      | some m => simp [hc, hm, hr, transferCount_append, transferCount, isTransferEvent]
      | none => simp [hc, hm, hr, transferCount_append, transferCount, isTransferEvent]
  · cases hr : env.retrieveError with
    | some m => simp [hc, hr, transferCount_append, transferCount, isTransferEvent]
    | none => simp [hc, hr, transferCount_append, transferCount, isTransferEvent]

lemma putBranch_shape (env : Env) (s : SFTPOperator) (evs : List ExecEvent) :
    ((putBranch env s evs).file_msg = none ∨
     (putBranch env s evs).file_msg = some ("from " ++ s.local_filepath ++ " to " ++ s.remote_filepath)) ∧
    transferCount (putBranch env s evs).events ≤ transferCount evs + 1 := by
  unfold putBranch
  by_cases hc : s.create_intermediate_dirs = true
  · cases hm : env.createDirError with
    | some m => simp [hc, hm, transferCount_append, transferCount, isTransferEvent]
    | none =>
      cases hw : env.storeError with
      | some m => simp [hc, hm, hw, transferCount_append, transferCount, isTransferEvent]
      | none => simp [hc, hm, hw, transferCount_append, transferCount, isTransferEvent]
  · cases hw : env.storeError with
    | some m => simp [hc, hw, transferCount_append, transferCount, isTransferEvent]
    | none => simp [hc, hw, transferCount_append, transferCount, isTransferEvent]

lemma getBranch_ok (env : Env) (s : SFTPOperator) (evs : List ExecEvent)
    (hm : env.mkdirError = none) (hr : env.retrieveError = none)
    (hc : s.create_intermediate_dirs = true) :
    getBranch env s evs =
      { self := s,
        events := evs ++
          [ExecEvent.mkdirLocal (posixDirname s.local_filepath) true true,
           ExecEvent.logTransferStart ("from " ++ s.remote_filepath ++ " to " ++ s.local_filepath),
           ExecEvent.retrieveFile s.remote_filepath s.local_filepath],
        file_msg := some ("from " ++ s.remote_filepath ++ " to " ++ s.local_filepath),
        err := none } := by
  unfold getBranch
  simp [hm, hr, hc]

lemma putBranch_ok (env : Env) (s : SFTPOperator) (evs : List ExecEvent)
    (hm : env.createDirError = none) (hw : env.storeError = none) :
    putBranch env s evs =
      { self := s,
        events := evs ++
          ((if s.create_intermediate_dirs then
              [ExecEvent.createRemoteDir (posixDirname s.remote_filepath)] else []) ++
           [ExecEvent.logTransferStart ("from " ++ s.local_filepath ++ " to " ++ s.remote_filepath),
            ExecEvent.storeFile s.remote_filepath s.local_filepath s.confirm]),
        file_msg := some ("from " ++ s.local_filepath ++ " to " ++ s.remote_filepath),
        err := none } := by
  unfold putBranch
  by_cases hc : s.create_intermediate_dirs = true <;> simp [hm, hw, hc]

lemma getBranch_events_prefix (env : Env) (s : SFTPOperator) (evs : List ExecEvent) :
    ∃ t, (getBranch env s evs).events = evs ++ t := by
  unfold getBranch
  by_cases hc : s.create_intermediate_dirs = true <;>
    cases hm : env.mkdirError <;> cases hr : env.retrieveError <;>
    simp only [hc, hm, hr, if_true, if_false, List.append_assoc] <;>
    exact ⟨_, rfl⟩

lemma putBranch_events_prefix (env : Env) (s : SFTPOperator) (evs : List ExecEvent) :
    ∃ t, (putBranch env s evs).events = evs ++ t := by
  unfold putBranch
  by_cases hc : s.create_intermediate_dirs = true <;>
    cases hm : env.createDirError <;> cases hw : env.storeError <;>
    simp only [hc, hm, hw, if_true, if_false, List.append_assoc] <;>
    exact ⟨_, rfl⟩

lemma hookIsValid_map_host (o : Option SFTPHookObj) (rh : Option String)
    (h : hookIsValid o = true) :
    hookIsValid (o.map (fun hk => { hk with remote_host := rh })) = true := by
  cases o with
  | none => simp [hookIsValid] at h
  | some hk => simpa [hookIsValid] using h

lemma executeBody_step_err (env : Env) (s s1 : SFTPOperator) (evs1 : List ExecEvent)
    (e : PyError) (hstep : resolveHookStep env s = (s1, evs1, some e)) :
    executeBody env s =
      { self := s1, events := evs1, file_msg := none, err := some e } := by
  unfold executeBody
  rw [hstep]

lemma executeBody_step_noHook (env : Env) (s s1 : SFTPOperator) (evs1 : List ExecEvent)
    (hstep : resolveHookStep env s = (s1, evs1, none))
    (hn : s1.sftp_hook.isNone = true) :
    executeBody env s =
      { self := s1, events := evs1, file_msg := none,
        err := some (PyError.airflowException cannotOperateMsg) } := by
  unfold executeBody
  rw [hstep]
  simp [hn]

lemma executeBody_eq_dispatch (env : Env) (s s1 : SFTPOperator) (evs1 : List ExecEvent)
    (hstep : resolveHookStep env s = (s1, evs1, none))
    (hn : s1.sftp_hook.isNone = false) :
    executeBody env s =
      (if strToLower (if s1.remote_host.isSome then
             { s1 with sftp_hook := s1.sftp_hook.map (fun h => { h with remote_host := s1.remote_host }) }
           else s1).operation = SFTPOperation.GET then
        getBranch env
          (if s1.remote_host.isSome then
             { s1 with sftp_hook := s1.sftp_hook.map (fun h => { h with remote_host := s1.remote_host }) }
           else s1)
          (evs1 ++ (if s1.remote_host.isSome then [ExecEvent.logRemoteHostReplace] else []))
      else
        putBranch env
          (if s1.remote_host.isSome then
             { s1 with sftp_hook := s1.sftp_hook.map (fun h => { h with remote_host := s1.remote_host }) }
           else s1)
          (evs1 ++ (if s1.remote_host.isSome then [ExecEvent.logRemoteHostReplace] else []))) := by
  unfold executeBody
  rw [hstep]
  simp [hn]

/-- Fields other than `sftp_hook` survive the hook-resolution step and the
`remote_host` override, so the dispatch arms see the configured paths. -/
lemma executeBody_resolved (env : Env) (s : SFTPOperator)
    (he : env.connIdHookError = none) (hres : hookResolvable s = true) :
    ∃ s2 evs2,
      executeBody env s =
        (if strToLower s2.operation = SFTPOperation.GET then getBranch env s2 evs2
         else putBranch env s2 evs2) ∧
      s2.operation = s.operation ∧ s2.local_filepath = s.local_filepath ∧
      s2.remote_filepath = s.remote_filepath ∧ s2.confirm = s.confirm ∧
      s2.create_intermediate_dirs = s.create_intermediate_dirs ∧
      s2.ssh_conn_id = s.ssh_conn_id ∧
      hookIsValid s2.sftp_hook = true ∧ transferCount evs2 = 0 := by
  obtain ⟨s1, evs1, hstep, hvalid, hcount, hcases⟩ := resolveHookStep_ok env s he hres
  have hbody := executeBody_eq_dispatch env s s1 evs1 hstep (hookIsValid_isSome hvalid)
  have hfields : s1.operation = s.operation ∧ s1.local_filepath = s.local_filepath ∧
      s1.remote_filepath = s.remote_filepath ∧ s1.confirm = s.confirm ∧
      s1.create_intermediate_dirs = s.create_intermediate_dirs ∧
      s1.ssh_conn_id = s.ssh_conn_id := by
    rcases hcases with h | h <;> subst h <;> exact ⟨rfl, rfl, rfl, rfl, rfl, rfl⟩
  obtain ⟨hf1, hf2, hf3, hf4, hf5, hf6⟩ := hfields
  by_cases hsome : s1.remote_host.isSome = true
  · refine ⟨{ s1 with sftp_hook := s1.sftp_hook.map (fun h => { h with remote_host := s1.remote_host }) },
      evs1 ++ [ExecEvent.logRemoteHostReplace], ?_, ?_, ?_, ?_, ?_, ?_, ?_, ?_, ?_⟩
    · rw [hbody]; simp only [hsome, if_true]
    · simpa using hf1
    · simpa using hf2
    · simpa using hf3
    · simpa using hf4
    · simpa using hf5
    · simpa using hf6
    · exact hookIsValid_map_host _ _ hvalid
    · rw [transferCount_append, hcount]
      simp [transferCount, isTransferEvent]
  · refine ⟨s1, evs1, ?_, hf1, hf2, hf3, hf4, hf5, hf6, hvalid, hcount⟩
    rw [hbody]; simp only [hsome, if_false]
    simp [hsome]

lemma execute_events_eq (env : Env) (s : SFTPOperator) :
    (SFTPOperator.execute env s).events = (executeBody env s).events := by
  unfold SFTPOperator.execute
  cases h : (executeBody env s).err <;> simp [h]

lemma execute_of_err (env : Env) (s : SFTPOperator) (e0 : PyError)
    (he : (executeBody env s).err = some e0) :
    (SFTPOperator.execute env s).result =
      Except.error (PyError.airflowException
        (transferErrMsg (fileMsgStr (executeBody env s).file_msg) (PyError.str e0))) := by
  unfold SFTPOperator.execute
  simp [he]

lemma execute_of_ok (env : Env) (s : SFTPOperator)
    (he : (executeBody env s).err = none) :
    (SFTPOperator.execute env s).result =
      Except.ok (executeBody env s).self.local_filepath := by
  unfold SFTPOperator.execute
  simp [he]

lemma execute_error_shape (env : Env) (s : SFTPOperator) (e : PyError)
    (h : (SFTPOperator.execute env s).result = Except.error e) :
    ∃ e0, (executeBody env s).err = some e0 ∧
      e = PyError.airflowException
        (transferErrMsg (fileMsgStr (executeBody env s).file_msg) (PyError.str e0)) := by
  cases he : (executeBody env s).err with
  | none =>
    rw [execute_of_ok env s he] at h
    exact absurd h (by simp)
  | some e0 =>
    rw [execute_of_err env s e0 he] at h
    simp only [Except.error.injEq] at h
    exact ⟨e0, rfl, h.symm⟩

lemma dispatch_fileMsg_count (env : Env) (s2 : SFTPOperator) (evs2 : List ExecEvent)
    (hcnt : transferCount evs2 = 0) :
    ((if strToLower s2.operation = SFTPOperation.GET then getBranch env s2 evs2
      else putBranch env s2 evs2).file_msg = none ∨
     (strToLower s2.operation = SFTPOperation.GET ∧
      (if strToLower s2.operation = SFTPOperation.GET then getBranch env s2 evs2
       else putBranch env s2 evs2).file_msg =
        some ("from " ++ s2.remote_filepath ++ " to " ++ s2.local_filepath)) ∨
     (¬ strToLower s2.operation = SFTPOperation.GET ∧
      (if strToLower s2.operation = SFTPOperation.GET then getBranch env s2 evs2
       else putBranch env s2 evs2).file_msg =
        some ("from " ++ s2.local_filepath ++ " to " ++ s2.remote_filepath))) ∧
    transferCount (if strToLower s2.operation = SFTPOperation.GET then getBranch env s2 evs2
      else putBranch env s2 evs2).events ≤ 1 := by
  by_cases hget : strToLower s2.operation = SFTPOperation.GET
  · simp only [hget, if_true]
    obtain ⟨hm, hc⟩ := getBranch_shape env s2 evs2
    refine ⟨?_, ?_⟩
    · rcases hm with h | h
      · exact Or.inl h
      · exact Or.inr (Or.inl ⟨trivial, h⟩)
    · calc transferCount (getBranch env s2 evs2).events ≤ transferCount evs2 + 1 := hc
        _ = 1 := by rw [hcnt]
  · simp only [hget, if_false]
    obtain ⟨hm, hc⟩ := putBranch_shape env s2 evs2
    refine ⟨?_, ?_⟩
    · rcases hm with h | h
      · exact Or.inl h
      · exact Or.inr (Or.inr ⟨not_false, h⟩)
    · calc transferCount (putBranch env s2 evs2).events ≤ transferCount evs2 + 1 := hc
        _ = 1 := by rw [hcnt]

lemma executeBody_fileMsg_count (env : Env) (s : SFTPOperator) :
    ((executeBody env s).file_msg = none ∨
     (strToLower s.operation = SFTPOperation.GET ∧
      (executeBody env s).file_msg =
        some ("from " ++ s.remote_filepath ++ " to " ++ s.local_filepath)) ∨
     (¬ strToLower s.operation = SFTPOperation.GET ∧
      (executeBody env s).file_msg =
        some ("from " ++ s.local_filepath ++ " to " ++ s.remote_filepath))) ∧
    transferCount (executeBody env s).events ≤ 1 := by
  obtain ⟨hs1or, hcnt⟩ := resolveHookStep_cases env s
  rcases hstep : resolveHookStep env s with ⟨s1, evs1, oe⟩
  rw [hstep] at hs1or hcnt
  simp only at hs1or hcnt
  have hflds : s1.local_filepath = s.local_filepath ∧
      s1.remote_filepath = s.remote_filepath ∧ s1.operation = s.operation := by
    rcases hs1or with h | h <;> subst h <;> exact ⟨rfl, rfl, rfl⟩
  cases oe with
  | some e =>
    rw [executeBody_step_err env s s1 evs1 e hstep]
    exact ⟨Or.inl rfl, by simp [hcnt]⟩
  | none =>
    by_cases hn : s1.sftp_hook.isNone = true
    · rw [executeBody_step_noHook env s s1 evs1 hstep hn]
      exact ⟨Or.inl rfl, by simp [hcnt]⟩
    · have hn2 : s1.sftp_hook.isNone = false := by
        cases hb : s1.sftp_hook.isNone with
        | false => rfl
        | true => exact absurd hb hn
      rw [executeBody_eq_dispatch env s s1 evs1 hstep hn2]
      by_cases hsome : s1.remote_host.isSome = true
      · simp only [hsome, if_true]
        have hd := dispatch_fileMsg_count env
          { s1 with sftp_hook := s1.sftp_hook.map (fun h => { h with remote_host := s1.remote_host }) }
          (evs1 ++ [ExecEvent.logRemoteHostReplace])
          (by rw [transferCount_append, hcnt]; simp [transferCount, isTransferEvent])
        simpa [hflds.1, hflds.2.1, hflds.2.2] using hd
      · simp only [hsome, Bool.false_eq_true, if_false]
        have hd := dispatch_fileMsg_count env s1 (evs1 ++ [])
          (by rw [transferCount_append, hcnt]; simp [transferCount])
        simpa [hflds.1, hflds.2.1, hflds.2.2] using hd

lemma execute_events_ignored (env : Env) (s : SFTPOperator)
    (h2 : connIdTruthy s.ssh_conn_id = true) (hv : hookIsValid s.sftp_hook = true) :
    ∃ rest, (SFTPOperator.execute env s).events = ExecEvent.logConnIdIgnored :: rest := by
  have hstep : resolveHookStep env s = (s, [ExecEvent.logConnIdIgnored], none) := by
    unfold resolveHookStep; simp [h2, hv]
  rw [execute_events_eq,
    executeBody_eq_dispatch env s s [ExecEvent.logConnIdIgnored] hstep (hookIsValid_isSome hv)]
  by_cases hsome : s.remote_host.isSome = true
  · simp only [hsome, if_true]
    split
    · obtain ⟨t, ht⟩ := getBranch_events_prefix env _
        ([ExecEvent.logConnIdIgnored] ++ [ExecEvent.logRemoteHostReplace])
      rw [ht]
      exact ⟨_, rfl⟩
    · obtain ⟨t, ht⟩ := putBranch_events_prefix env _
        ([ExecEvent.logConnIdIgnored] ++ [ExecEvent.logRemoteHostReplace])
      rw [ht]
      exact ⟨_, rfl⟩
  · simp only [hsome, Bool.false_eq_true, if_false]
    split
    · obtain ⟨t, ht⟩ := getBranch_events_prefix env s ([ExecEvent.logConnIdIgnored] ++ [])
      rw [ht]
      exact ⟨_, rfl⟩
    · obtain ⟨t, ht⟩ := putBranch_events_prefix env s ([ExecEvent.logConnIdIgnored] ++ [])
      rw [ht]
      exact ⟨_, rfl⟩

/-- Events recorded by a successful construction ([] when it fails). -/
def initEvents (a : InitArgs) : List InitEvent :=
  match SFTPOperator.init a with
  | Except.ok p => p.2
  | Except.error _ => []

/-- Whether construction succeeds. -/
def initSucceeds (a : InitArgs) : Bool :=
  match SFTPOperator.init a with
  | Except.ok _ => true
  | Except.error _ => false

/-- An explicit, caller-supplied `SFTPHook` instance. -/
def suppliedHook : SFTPHookObj :=
  { isSFTPHook := true, origin := HookOrigin.supplied 0, remote_host := none }

/-- Arguments with an invalid operation string. -/
def argsBadOp : InitArgs :=
  { local_filepath := "/tmp/l.txt", remote_filepath := "/tmp/r.txt", operation := "copy" }

/-- Arguments with an uppercase GET operation. -/
def argsGetOp : InitArgs :=
  { local_filepath := "/tmp/l.txt", remote_filepath := "/tmp/r.txt", operation := "GET" }

/-- Arguments supplying both hook parameters (valid operation). -/
def argsBothHooks : InitArgs :=
  { ssh_hook := some { isSSHHook := true, hookId := 1 }, sftp_hook := some suppliedHook,
    local_filepath := "/tmp/l.txt", remote_filepath := "/tmp/r.txt" }

/-- Arguments supplying both hook parameters and an invalid operation. -/
def argsBothHooksBadOp : InitArgs :=
  { argsBothHooks with operation := "copy" }

/-- Arguments supplying only a valid legacy `SSHHook`. -/
def argsLegacyValid : InitArgs :=
  { ssh_hook := some { isSSHHook := true, hookId := 2 },
    local_filepath := "/tmp/l.txt", remote_filepath := "/tmp/r.txt" }

/-- Arguments supplying an `ssh_hook` object that is not an `SSHHook`. -/
def argsLegacyInvalid : InitArgs :=
  { ssh_hook := some { isSSHHook := false, hookId := 3 }, ssh_conn_id := some "conn_a",
    local_filepath := "/tmp/l.txt", remote_filepath := "/tmp/r.txt" }

/-- Claim C1: an operation string whose lowercase form is not `get` or
`put` makes construction fail with the unsupported-operation `TypeError`
naming the offending value and the two accepted values; a string whose
lowercase form is `get` or `put` passes the operation check, and (when the
two hook parameters do not clash) construction succeeds storing that
operation, which `execute` later dispatches by its lowercase form. -/
theorem claim1_operation_normalized (a : InitArgs) :
    (¬ (strToLower a.operation = SFTPOperation.GET ∨ strToLower a.operation = SFTPOperation.PUT) →
      SFTPOperator.init a =
        Except.error (PyError.typeError (unsupportedOperationMsg a.operation))) ∧
    ((strToLower a.operation = SFTPOperation.GET ∨ strToLower a.operation = SFTPOperation.PUT) →
      ¬ (a.ssh_hook.isSome = true ∧ a.sftp_hook.isSome = true) →
      ∃ p, SFTPOperator.init a = Except.ok p ∧ p.1.operation = a.operation) := by
  constructor
  · intro h
    simp [SFTPOperator.init, SFTPOperator.fieldsOf, h]
  · intro hop hhk
    have hcond := not_not_intro hop
    rcases hsh : a.ssh_hook with _ | hk
    · refine ⟨(SFTPOperator.fieldsOf a, []), ?_, by simp [SFTPOperator.fieldsOf]⟩
      simp [SFTPOperator.init, SFTPOperator.fieldsOf, hcond, hsh]
    · have hsf : a.sftp_hook = none := by
        rcases ho : a.sftp_hook with _ | v
        · rfl
        · exact absurd ⟨by simp [hsh], by simp [ho]⟩ hhk
      by_cases hvalid : hk.isSSHHook = true
      · refine ⟨({ SFTPOperator.fieldsOf a with sftp_hook := some (SFTPHook.ofSshHook hk) },
          [InitEvent.deprecationWarning]), ?_, by simp [SFTPOperator.fieldsOf]⟩
        simp [SFTPOperator.init, SFTPOperator.fieldsOf, hcond, hsh, hsf, hvalid]
      · refine ⟨({ SFTPOperator.fieldsOf a with sftp_hook := some (SFTPHook.ofConnId a.ssh_conn_id) },
          [InitEvent.logInvalidSshHook]), ?_, by simp [SFTPOperator.fieldsOf]⟩
        simp [SFTPOperator.init, SFTPOperator.fieldsOf, hcond, hsh, hsf, hvalid]

/-- Witness for C1 at the concrete inputs `argsBadOp` and `argsGetOp`. -/
theorem claim1_witness :
    SFTPOperator.init argsBadOp =
      Except.error (PyError.typeError (unsupportedOperationMsg argsBadOp.operation)) ∧
    ∃ p, SFTPOperator.init argsGetOp = Except.ok p ∧ p.1.operation = argsGetOp.operation :=
  ⟨(claim1_operation_normalized argsBadOp).1 (by decide),
   (claim1_operation_normalized argsGetOp).2 (by decide) (by decide)⟩

/-- Claim C6 counterexample: with both hook parameters supplied AND an
invalid operation value, construction fails with the unsupported-operation
`TypeError`, not with the only-one-of-them error — so the error is not the
only-one error for every combination of the other fields. -/
theorem claim6_counterexample :
    SFTPOperator.init argsBothHooksBadOp =
      Except.error (PyError.typeError (unsupportedOperationMsg "copy")) ∧
    ¬ SFTPOperator.init argsBothHooksBadOp =
        Except.error (PyError.airflowException bothHooksMsg) := by
  constructor
  · decide
  · decide

/-- Claim C6 amended: supplying both hooks always fails construction, and
the failure is the only-one-of-them `AirflowException` whenever the
operation value is valid (the operation check runs first). -/
theorem claim6_amended_both_hooks (a : InitArgs)
    (h1 : a.ssh_hook.isSome = true) (h2 : a.sftp_hook.isSome = true) :
    (∃ e, SFTPOperator.init a = Except.error e) ∧
    ((strToLower a.operation = SFTPOperation.GET ∨ strToLower a.operation = SFTPOperation.PUT) →
      SFTPOperator.init a = Except.error (PyError.airflowException bothHooksMsg)) := by
  by_cases hop : strToLower a.operation = SFTPOperation.GET ∨ strToLower a.operation = SFTPOperation.PUT
  · have hres : SFTPOperator.init a = Except.error (PyError.airflowException bothHooksMsg) := by
      simp [SFTPOperator.init, SFTPOperator.fieldsOf, not_not_intro hop, h1, h2]
    exact ⟨⟨_, hres⟩, fun _ => hres⟩
  · have hres : SFTPOperator.init a =
        Except.error (PyError.typeError (unsupportedOperationMsg a.operation)) := by
      simp [SFTPOperator.init, SFTPOperator.fieldsOf, hop]
    exact ⟨⟨_, hres⟩, fun hcontra => absurd hcontra hop⟩

/-- Witness for the amended C6 at the concrete input `argsBothHooks`. -/
theorem claim6_witness :
    (∃ e, SFTPOperator.init argsBothHooks = Except.error e) ∧
    ((strToLower argsBothHooks.operation = SFTPOperation.GET ∨
      strToLower argsBothHooks.operation = SFTPOperation.PUT) →
      SFTPOperator.init argsBothHooks =
        Except.error (PyError.airflowException bothHooksMsg)) :=
  claim6_amended_both_hooks argsBothHooks (by decide) (by decide)

/-- Claim C7: supplying only a valid legacy `SSHHook` (no explicit
`sftp_hook`) yields an operator whose hook wraps the legacy handle, with
exactly the deprecation warning recorded. -/
theorem claim7_legacy_wrapped (a : InitArgs) (hk : SSHHookParam)
    (hop : strToLower a.operation = SFTPOperation.GET ∨ strToLower a.operation = SFTPOperation.PUT)
    (hsh : a.ssh_hook = some hk) (hvalid : hk.isSSHHook = true) (hsf : a.sftp_hook = none) :
    ∃ s, SFTPOperator.init a = Except.ok (s, [InitEvent.deprecationWarning]) ∧
      s.sftp_hook = some (SFTPHook.ofSshHook hk) := by
  refine ⟨{ SFTPOperator.fieldsOf a with sftp_hook := some (SFTPHook.ofSshHook hk) }, ?_, by simp⟩
  simp [SFTPOperator.init, SFTPOperator.fieldsOf, not_not_intro hop, hsh, hvalid, hsf]

/-- Witness for C7 at the concrete input `argsLegacyValid`. -/
theorem claim7_witness :
    ∃ s, SFTPOperator.init argsLegacyValid = Except.ok (s, [InitEvent.deprecationWarning]) ∧
      s.sftp_hook = some (SFTPHook.ofSshHook { isSSHHook := true, hookId := 2 }) :=
  claim7_legacy_wrapped argsLegacyValid { isSSHHook := true, hookId := 2 }
    (by decide) (by decide) (by decide) (by decide)

/-- Claim C8 counterexample: construction with an `ssh_hook` object that is
NOT a valid `SSHHook` instance succeeds but records no deprecation warning
(only the informational log), refuting that the mere presence of the
legacy-handle parameter triggers the notice. -/
theorem claim8_counterexample :
    initSucceeds argsLegacyInvalid = true ∧
    InitEvent.deprecationWarning ∉ initEvents argsLegacyInvalid := by
  constructor
  · decide
  · decide

/-- Claim C8 amended: with the legacy-handle parameter present (and no
explicit client hook), the deprecation warning is recorded exactly when
the supplied object is a valid `SSHHook` instance. -/
theorem claim8_amended_deprecation (a : InitArgs) (hk : SSHHookParam)
    (hop : strToLower a.operation = SFTPOperation.GET ∨ strToLower a.operation = SFTPOperation.PUT)
    (hsh : a.ssh_hook = some hk) (hsf : a.sftp_hook = none) :
    ∃ p, SFTPOperator.init a = Except.ok p ∧
      (InitEvent.deprecationWarning ∈ p.2 ↔ hk.isSSHHook = true) := by
  by_cases hvalid : hk.isSSHHook = true
  · refine ⟨({ SFTPOperator.fieldsOf a with sftp_hook := some (SFTPHook.ofSshHook hk) },
      [InitEvent.deprecationWarning]), ?_, by simp [hvalid]⟩
    simp [SFTPOperator.init, SFTPOperator.fieldsOf, not_not_intro hop, hsh, hsf, hvalid]
  · refine ⟨({ SFTPOperator.fieldsOf a with sftp_hook := some (SFTPHook.ofConnId a.ssh_conn_id) },
      [InitEvent.logInvalidSshHook]), ?_, by simp [hvalid]⟩
    simp [SFTPOperator.init, SFTPOperator.fieldsOf, not_not_intro hop, hsh, hsf, hvalid]

/-- Witness for the amended C8 at the concrete input `argsLegacyInvalid`. -/
theorem claim8_witness :
    ∃ p, SFTPOperator.init argsLegacyInvalid = Except.ok p ∧
      (InitEvent.deprecationWarning ∈ p.2 ↔
        SSHHookParam.isSSHHook { isSSHHook := false, hookId := 3 } = true) :=
  claim8_amended_deprecation argsLegacyInvalid { isSSHHook := false, hookId := 3 }
    (by decide) (by decide) (by decide)

lemma execute_self_eq (env : Env) (s : SFTPOperator) :
    (SFTPOperator.execute env s).self = (executeBody env s).self := by
  unfold SFTPOperator.execute
  cases h : (executeBody env s).err <;> simp [h]

lemma transferErrMsg_ne_cannot (fm c : String) :
    transferErrMsg fm c ≠ cannotOperateMsg := by
  intro h
  have hh : (transferErrMsg fm c).data.head? = cannotOperateMsg.data.head? := by rw [h]
  simp [transferErrMsg, cannotOperateMsg] at hh

/-- A GET task with an explicit valid hook and missing local parents. -/
def stateGet : SFTPOperator :=
  { ssh_hook := none, sftp_hook := some suppliedHook, ssh_conn_id := none, remote_host := none,
    local_filepath := "/tmp/tmp1/tmp2/file.txt", remote_filepath := "/srv/data/file.txt",
    operation := "GET", confirm := true, create_intermediate_dirs := true }

/-- A PUT task with an explicit valid hook and `confirm := false`. -/
def statePut : SFTPOperator :=
  { ssh_hook := none, sftp_hook := some suppliedHook, ssh_conn_id := none, remote_host := none,
    local_filepath := "/tmp/file.txt", remote_filepath := "/tmp/tmp1/tmp2/file.txt",
    operation := "put", confirm := false, create_intermediate_dirs := true }

/-- A task with neither a hook nor a connection identifier. -/
def stateNoHook : SFTPOperator :=
  { ssh_hook := none, sftp_hook := none, ssh_conn_id := none, remote_host := none,
    local_filepath := "/tmp/l.txt", remote_filepath := "/tmp/r.txt",
    operation := "put", confirm := true, create_intermediate_dirs := false }

/-- A task that must build its hook from the connection identifier. -/
def stateConnId : SFTPOperator :=
  { ssh_hook := none, sftp_hook := none, ssh_conn_id := some "conn_b", remote_host := none,
    local_filepath := "/tmp/l.txt", remote_filepath := "/tmp/r.txt",
    operation := "put", confirm := true, create_intermediate_dirs := false }

/-- An environment in which the store call fails. -/
def envStoreFail : Env :=
  { Env.allOk with storeError := some "connection reset" }

/-- Claim C2: whenever `execute` fails, the raised error is exactly the
single translated `AirflowException` built from the `file_msg` the body
actually computed and the description of the error the body actually
raised (`str(e)`); that `file_msg` is the unset placeholder (rendered
`None`) when the failure happened before dispatch assigned it, the
GET direction message when the lowercased operation dispatched to the GET
arm, and the PUT direction message otherwise; and the trace holds at most
one transfer invocation (no retry; the error result excludes the
local-path return). -/
theorem claim2_failure_translation (env : Env) (s : SFTPOperator) (e : PyError)
    (h : (SFTPOperator.execute env s).result = Except.error e) :
    (∃ e0, (executeBody env s).err = some e0 ∧
      e = PyError.airflowException
        (transferErrMsg (fileMsgStr (executeBody env s).file_msg) (PyError.str e0))) ∧
    ((executeBody env s).file_msg = none ∨
     (strToLower s.operation = SFTPOperation.GET ∧
      (executeBody env s).file_msg =
        some ("from " ++ s.remote_filepath ++ " to " ++ s.local_filepath)) ∨
     (¬ strToLower s.operation = SFTPOperation.GET ∧
      (executeBody env s).file_msg =
        some ("from " ++ s.local_filepath ++ " to " ++ s.remote_filepath))) ∧
    transferCount (SFTPOperator.execute env s).events ≤ 1 := by
  obtain ⟨e0, he0, heq⟩ := execute_error_shape env s e h
  obtain ⟨hmsg, hcnt⟩ := executeBody_fileMsg_count env s
  subst heq
  refine ⟨⟨e0, he0, rfl⟩, hmsg, ?_⟩
  rw [execute_events_eq]
  exact hcnt

/-- Witness for C2: a PUT run whose store call fails with
"connection reset". -/
theorem claim2_witness :
    (∃ e0, (executeBody envStoreFail statePut).err = some e0 ∧
      PyError.airflowException
          (transferErrMsg ("from " ++ statePut.local_filepath ++ " to " ++
            statePut.remote_filepath) "connection reset") =
        PyError.airflowException
          (transferErrMsg (fileMsgStr (executeBody envStoreFail statePut).file_msg)
            (PyError.str e0))) ∧
    ((executeBody envStoreFail statePut).file_msg = none ∨
     (strToLower statePut.operation = SFTPOperation.GET ∧
      (executeBody envStoreFail statePut).file_msg =
        some ("from " ++ statePut.remote_filepath ++ " to " ++ statePut.local_filepath)) ∨
     (¬ strToLower statePut.operation = SFTPOperation.GET ∧
      (executeBody envStoreFail statePut).file_msg =
        some ("from " ++ statePut.local_filepath ++ " to " ++ statePut.remote_filepath))) ∧
    transferCount (SFTPOperator.execute envStoreFail statePut).events ≤ 1 :=
  claim2_failure_translation envStoreFail statePut
    (PyError.airflowException
      (transferErrMsg ("from " ++ statePut.local_filepath ++ " to " ++
        statePut.remote_filepath) "connection reset"))
    (by decide)

/-- Claim C3: a GET run with `create_intermediate_dirs` on, a resolvable
hook, and succeeding collaborators calls `Path.mkdir` on the local parent
directory with `parents=True, exist_ok=True` (create all missing ancestors,
no error if present), then `retrieve_file(remote, local)`, and returns the
configured local path. -/
theorem claim3_get_creates_dirs (s : SFTPOperator)
    (hop : strToLower s.operation = SFTPOperation.GET)
    (hcd : s.create_intermediate_dirs = true)
    (hres : hookResolvable s = true) :
    (SFTPOperator.execute Env.allOk s).result = Except.ok s.local_filepath ∧
    List.IsSuffix
      [ExecEvent.mkdirLocal (posixDirname s.local_filepath) true true,
       ExecEvent.logTransferStart ("from " ++ s.remote_filepath ++ " to " ++ s.local_filepath),
       ExecEvent.retrieveFile s.remote_filepath s.local_filepath]
      (SFTPOperator.execute Env.allOk s).events := by
  obtain ⟨s2, evs2, hbody, hopr, hlf, hrf, hcf, hcd2, hci, hval, hcnt⟩ :=
    executeBody_resolved Env.allOk s rfl hres
  have hget : strToLower s2.operation = SFTPOperation.GET := by rw [hopr]; exact hop
  rw [if_pos hget] at hbody
  rw [getBranch_ok Env.allOk s2 evs2 rfl rfl (by rw [hcd2]; exact hcd)] at hbody
  constructor
  · rw [execute_of_ok Env.allOk s (by rw [hbody])]
    rw [hbody]
    simp [hlf]
  · have hev : (SFTPOperator.execute Env.allOk s).events =
        evs2 ++
          [ExecEvent.mkdirLocal (posixDirname s.local_filepath) true true,
           ExecEvent.logTransferStart ("from " ++ s.remote_filepath ++ " to " ++ s.local_filepath),
           ExecEvent.retrieveFile s.remote_filepath s.local_filepath] := by
      rw [execute_events_eq, hbody, hlf, hrf]
    rw [hev]
    exact ⟨evs2, rfl⟩

/-- Witness for C3 at the concrete input `stateGet`. -/
theorem claim3_witness :
    (SFTPOperator.execute Env.allOk stateGet).result = Except.ok stateGet.local_filepath ∧
    List.IsSuffix
      [ExecEvent.mkdirLocal (posixDirname stateGet.local_filepath) true true,
       ExecEvent.logTransferStart
         ("from " ++ stateGet.remote_filepath ++ " to " ++ stateGet.local_filepath),
       ExecEvent.retrieveFile stateGet.remote_filepath stateGet.local_filepath]
      (SFTPOperator.execute Env.allOk stateGet).events :=
  claim3_get_creates_dirs stateGet (by decide) (by decide) (by decide)

/-- Claim C4: a PUT run with a resolvable hook and succeeding collaborators
invokes `store_file(remote, local, confirm=self.confirm)` — so
`confirm=false` exactly when the configured flag is false — and, when
`create_intermediate_dirs` is set, first asks the client to create the
remote parent directory; the run returns the configured local path. -/
theorem claim4_put_store_confirm (s : SFTPOperator)
    (hop : strToLower s.operation = SFTPOperation.PUT)
    (hres : hookResolvable s = true) :
    (SFTPOperator.execute Env.allOk s).result = Except.ok s.local_filepath ∧
    List.IsSuffix
      ((if s.create_intermediate_dirs then
          [ExecEvent.createRemoteDir (posixDirname s.remote_filepath)] else []) ++
       [ExecEvent.logTransferStart ("from " ++ s.local_filepath ++ " to " ++ s.remote_filepath),
        ExecEvent.storeFile s.remote_filepath s.local_filepath s.confirm])
      (SFTPOperator.execute Env.allOk s).events := by
  obtain ⟨s2, evs2, hbody, hopr, hlf, hrf, hcf, hcd2, hci, hval, hcnt⟩ :=
    executeBody_resolved Env.allOk s rfl hres
  have hput : ¬ (strToLower s2.operation = SFTPOperation.GET) := by
    rw [hopr, hop]; decide
  rw [if_neg hput] at hbody
  rw [putBranch_ok Env.allOk s2 evs2 rfl rfl] at hbody
  constructor
  · rw [execute_of_ok Env.allOk s (by rw [hbody])]
    rw [hbody]
    simp [hlf]
  · have hev : (SFTPOperator.execute Env.allOk s).events =
        evs2 ++
          ((if s.create_intermediate_dirs then
              [ExecEvent.createRemoteDir (posixDirname s.remote_filepath)] else []) ++
           [ExecEvent.logTransferStart ("from " ++ s.local_filepath ++ " to " ++ s.remote_filepath),
            ExecEvent.storeFile s.remote_filepath s.local_filepath s.confirm]) := by
      rw [execute_events_eq, hbody, hlf, hrf, hcf, hcd2]
    rw [hev]
    exact ⟨evs2, rfl⟩

/-- Witness for C4 at the concrete input `statePut` (confirm = false). -/
theorem claim4_witness :
    (SFTPOperator.execute Env.allOk statePut).result = Except.ok statePut.local_filepath ∧
    List.IsSuffix
      ((if statePut.create_intermediate_dirs then
          [ExecEvent.createRemoteDir (posixDirname statePut.remote_filepath)] else []) ++
       [ExecEvent.logTransferStart
          ("from " ++ statePut.local_filepath ++ " to " ++ statePut.remote_filepath),
        ExecEvent.storeFile statePut.remote_filepath statePut.local_filepath statePut.confirm])
      (SFTPOperator.execute Env.allOk statePut).events :=
  claim4_put_store_confirm statePut (by decide) (by decide)

/-- Claim C5: with no hook and a falsy connection identifier, `execute`
raises (wrapped, as every body failure is) the cannot-operate
`AirflowException`, and its trace is empty — in particular neither
`retrieve_file` nor `store_file` is invoked. -/
theorem claim5_no_hook_error (env : Env) (s : SFTPOperator)
    (h1 : s.sftp_hook = none) (h2 : connIdTruthy s.ssh_conn_id = false) :
    (SFTPOperator.execute env s).result =
      Except.error (PyError.airflowException (transferErrMsg "None" cannotOperateMsg)) ∧
    (SFTPOperator.execute env s).events = [] := by
  have hstep : resolveHookStep env s = (s, [], none) := by
    unfold resolveHookStep
    simp [h2]
  have hbody := executeBody_step_noHook env s s [] hstep (by rw [h1]; rfl)
  constructor
  · rw [execute_of_err env s (PyError.airflowException cannotOperateMsg) (by rw [hbody])]
    rw [hbody]
    rfl
  · rw [execute_events_eq, hbody]

/-- Witness for C5 at the concrete input `stateNoHook`. -/
theorem claim5_witness :
    (SFTPOperator.execute Env.allOk stateNoHook).result =
      Except.error (PyError.airflowException (transferErrMsg "None" cannotOperateMsg)) ∧
    (SFTPOperator.execute Env.allOk stateNoHook).events = [] :=
  claim5_no_hook_error Env.allOk stateNoHook (by decide) (by decide)

/-- Claim C9 counterexample: an execution that builds its hook from the
connection identifier mutates the stored configuration (`self.sftp_hook`
is assigned), and a second execution of the same instance finds that
stored hook — its first event is the identifier-ignored log — rather than
resolving afresh. -/
theorem claim9_counterexample :
    (SFTPOperator.execute Env.allOk stateConnId).self ≠ stateConnId ∧
    (SFTPOperator.execute Env.allOk
      ((SFTPOperator.execute Env.allOk stateConnId).self)).events.head? =
      some ExecEvent.logConnIdIgnored := by
  constructor
  · decide
  · decide

/-- Claim C9 amended: the resolved hook IS persisted: after an execution
that resolves the hook from the identifier, the instance's `sftp_hook`
field holds a valid hook, and a second execution of that instance starts
by logging that the identifier is ignored instead of resolving afresh. -/
theorem claim9_amended_persisted (env : Env) (s : SFTPOperator)
    (h1 : s.sftp_hook = none) (h2 : connIdTruthy s.ssh_conn_id = true)
    (h3 : env.connIdHookError = none) :
    ∃ hk, (SFTPOperator.execute env s).self.sftp_hook = some hk ∧ hk.isSFTPHook = true ∧
      ∃ rest, (SFTPOperator.execute env
        ((SFTPOperator.execute env s).self)).events =
          ExecEvent.logConnIdIgnored :: rest := by
  have hstep : resolveHookStep env s =
      ({ s with sftp_hook := some (SFTPHook.ofConnId s.ssh_conn_id) },
       [ExecEvent.logTryConnId], none) := by
    unfold resolveHookStep
    simp [h1, h2, h3, hookIsValid]
  have hbody := executeBody_eq_dispatch env s
    { s with sftp_hook := some (SFTPHook.ofConnId s.ssh_conn_id) }
    [ExecEvent.logTryConnId] hstep rfl
  have hself : (SFTPOperator.execute env s).self =
      (if s.remote_host.isSome then
        { s with sftp_hook := some { SFTPHook.ofConnId s.ssh_conn_id with
            remote_host := s.remote_host } }
       else { s with sftp_hook := some (SFTPHook.ofConnId s.ssh_conn_id) }) := by
    rw [execute_self_eq, hbody]
    by_cases hsome : s.remote_host.isSome = true
    · simp only [hsome, if_true]
      split
      · rw [getBranch_self]; rfl
      · rw [putBranch_self]; rfl
    · simp only [hsome, Bool.false_eq_true, if_false]
      split
      · rw [getBranch_self]
      · rw [putBranch_self]
  by_cases hsome : s.remote_host.isSome = true
  · rw [hself]
    simp only [hsome, if_true]
    refine ⟨{ SFTPHook.ofConnId s.ssh_conn_id with remote_host := s.remote_host }, rfl, rfl, ?_⟩
    apply execute_events_ignored
    · simpa using h2
    · rfl
  · rw [hself]
    simp only [hsome, Bool.false_eq_true, if_false]
    refine ⟨SFTPHook.ofConnId s.ssh_conn_id, rfl, rfl, ?_⟩
    apply execute_events_ignored
    · simpa using h2
    · rfl

/-- Witness for the amended C9 at the concrete input `stateConnId`. -/
theorem claim9_witness :
    ∃ hk, (SFTPOperator.execute Env.allOk stateConnId).self.sftp_hook = some hk ∧
      hk.isSFTPHook = true ∧
      ∃ rest, (SFTPOperator.execute Env.allOk
        ((SFTPOperator.execute Env.allOk stateConnId).self)).events =
          ExecEvent.logConnIdIgnored :: rest :=
  claim9_amended_persisted Env.allOk stateConnId (by decide) (by decide) (by decide)

/-- Claim C10: every failure of the execute body reaches the caller as the
single translated `AirflowException` of the wrapped form; the caller never
observes a `TypeError`, an external exception, or the bare cannot-operate
error unwrapped. -/
theorem claim10_always_wrapped (env : Env) (s : SFTPOperator) (e : PyError)
    (h : (SFTPOperator.execute env s).result = Except.error e) :
    (∃ e0, (executeBody env s).err = some e0 ∧
      e = PyError.airflowException
        (transferErrMsg (fileMsgStr (executeBody env s).file_msg) (PyError.str e0))) ∧
    (∀ m, e ≠ PyError.typeError m) ∧ (∀ m, e ≠ PyError.externalError m) ∧
    e ≠ PyError.airflowException cannotOperateMsg := by
  obtain ⟨e0, he0, heq⟩ := execute_error_shape env s e h
  subst heq
  refine ⟨⟨e0, he0, rfl⟩, fun m hm => PyError.noConfusion hm,
    fun m hm => PyError.noConfusion hm, fun hm => ?_⟩
  exact transferErrMsg_ne_cannot _ _ (by injection hm)

/-- Witness for C10 at the concrete run of `stateConnId` with a failing
hook constructor (a failure before the transfer arm is reached). -/
theorem claim10_witness :
    (∃ e0, (executeBody { Env.allOk with connIdHookError := some "no such connection" }
        stateConnId).err = some e0 ∧
      PyError.airflowException (transferErrMsg "None" "no such connection") =
        PyError.airflowException
          (transferErrMsg (fileMsgStr (executeBody
            { Env.allOk with connIdHookError := some "no such connection" }
            stateConnId).file_msg) (PyError.str e0))) ∧
    (∀ m, PyError.airflowException (transferErrMsg "None" "no such connection") ≠
      PyError.typeError m) ∧
    (∀ m, PyError.airflowException (transferErrMsg "None" "no such connection") ≠
      PyError.externalError m) ∧
    PyError.airflowException (transferErrMsg "None" "no such connection") ≠
      PyError.airflowException cannotOperateMsg :=
  claim10_always_wrapped { Env.allOk with connIdHookError := some "no such connection" }
    stateConnId
    (PyError.airflowException (transferErrMsg "None" "no such connection"))
    (by decide)

end Sftp
